import Mathlib

/-!
Verification of the FFI safety-boundary layer (`src/core/src/ffi.rs`):
the Text Bridge (`AsStr`, `ToCString`), the Result Bridge (`ToResult`
for `*mut T`, `*const T` and `c_int`), and the ABI struct factories
(`RteEthStats::default`, `RteEthDevInfo::default`, ...).

Modelling conventions:
- raw pointers are modelled as `Nat` addresses, with address `0` standing
  for the null pointer (so `NonNull::new p` is `some p` iff `p ≠ 0`);
- `c_int` is modelled as `Int` together with the 32-bit signed range
  hypothesis `-2^31 ≤ v < 2^31` where a claim needs it;
- the `as u32` cast is modelled as `(v % 2^32).toNat`;
- byte strings (`&str` bytes, `CStr` contents) are `List Nat` of byte values;
- the unified error type (`anyhow::Error`) is an arbitrary type parameter
  `E`, with the `.into()` conversion modelled as the identity;
- `warn!` logging is modelled by returning the number of log calls next to
  the result.
-/

namespace Ffi

/-- A byte of a native byte string. -/
abbrev Byte := Nat

/-- Is `c` a UTF-8 continuation byte (`0x80 ≤ c ≤ 0xBF`)? -/
def isCont (c : Byte) : Bool := 0x80 ≤ c && c ≤ 0xBF

/-- UTF-8 validity of a byte sequence, as checked by Rust's
`str::from_utf8` (RFC 3629: no surrogates, no overlong encodings,
code points at most U+10FFFF). -/
def validUtf8 : List Byte → Bool
  | [] => true
  | b :: rest =>
    if b ≤ 0x7F then validUtf8 rest
    else if 0xC2 ≤ b && b ≤ 0xDF then
      match rest with
      | c1 :: rest1 => isCont c1 && validUtf8 rest1
      | [] => false
    else if b = 0xE0 then
      match rest with
      | c1 :: c2 :: rest2 =>
        (0xA0 ≤ c1 && c1 ≤ 0xBF) && isCont c2 && validUtf8 rest2
      | _ => false
    else if (0xE1 ≤ b && b ≤ 0xEC) || b = 0xEE || b = 0xEF then
      match rest with
      | c1 :: c2 :: rest2 => isCont c1 && isCont c2 && validUtf8 rest2
      | _ => false
    else if b = 0xED then
      match rest with
      | c1 :: c2 :: rest2 =>
        (0x80 ≤ c1 && c1 ≤ 0x9F) && isCont c2 && validUtf8 rest2
      | _ => false
    else if b = 0xF0 then
      match rest with
      | c1 :: c2 :: c3 :: rest3 =>
        (0x90 ≤ c1 && c1 ≤ 0xBF) && isCont c2 && isCont c3 && validUtf8 rest3
      | _ => false
    else if 0xF1 ≤ b && b ≤ 0xF3 then
      match rest with
      | c1 :: c2 :: c3 :: rest3 =>
        isCont c1 && isCont c2 && isCont c3 && validUtf8 rest3
      | _ => false
    else if b = 0xF4 then
      match rest with
      | c1 :: c2 :: c3 :: rest3 =>
        (0x80 ≤ c1 && c1 ≤ 0x8F) && isCont c2 && isCont c3 && validUtf8 rest3
      | _ => false
    else false

/-- The bytes `CStr::from_ptr` exposes: everything strictly before the
first NUL terminator of the buffer. -/
def cstrBytes (buf : List Byte) : List Byte := buf.takeWhile (· ≠ 0)

/-- `AsStr::as_str` (both the `*const c_char` and the `[c_char]` impl go
through `CStr::from_ptr(...).to_str()`): take the bytes before the first
NUL; if they are valid UTF-8, return them as the text with no log call,
otherwise log one `warn!` and return the empty default text.  The second
component counts the `warn!` calls. -/
def as_str (buf : List Byte) : List Byte × Nat :=
  let b := cstrBytes buf
  if validUtf8 b then (b, 0) else ([], 1)

/-- `ToCString::into_cstring`: `CString::new(s).unwrap()`.  `CString::new`
scans the text's bytes for an interior NUL; on success it appends the NUL
terminator, and `unwrap` turns the interior-NUL error into a panic
(modelled as `none`). -/
def into_cstring (s : List Byte) : Option (List Byte) :=
  if 0 ∈ s then none else some (s ++ [0])

/-- `NonNull::new`: `some p` iff the address is non-null. -/
def nonNull_new (p : Nat) : Option Nat :=
  if p = 0 then none else some p

/-- `ToResult for *mut T`: `NonNull::new(self).ok_or_else(|| f(self).into())`. -/
def mutPtr_into_result {E : Type} (p : Nat) (f : Nat → E) : Except E Nat :=
  match nonNull_new p with
  | some q => .ok q
  | none => .error (f p)

/-- `ToResult for *const T`: null yields `Err(f(self).into())`, otherwise
`Ok(self)`. -/
def constPtr_into_result {E : Type} (p : Nat) (f : Nat → E) : Except E Nat :=
  if p = 0 then .error (f p) else .ok p

/-- `ToResult for c_int`: `if self >= 0 { Ok(self as u32) } else
{ Err(f(self).into()) }`, with the `as u32` cast modelled modulo `2^32`. -/
def cInt_into_result {E : Type} (v : Int) (f : Int → E) : Except E Nat :=
  if 0 ≤ v then .ok ((v % 4294967296).toNat) else .error (f v)

/-- Modelled from the spec: the driver-side constant
`RTE_ETHDEV_QUEUE_STAT_CNTRS` comes from the `dpdk_sys` bindings (not under
`src/`); the spec says the five per-queue arrays of `rte_eth_stats` take
their length from it.  DPDK declares it as 16. -/
def RTE_ETHDEV_QUEUE_STAT_CNTRS : Nat := 16

/-- Modelled from the spec: layout of `rte_eth_stats` from the `dpdk_sys`
bindings, with the field list taken from `RteEthStats::default` in
`ffi.rs`.  Numeric fields are `Nat`, the per-queue arrays are byte lists. -/
structure rte_eth_stats where
  ipackets : Nat
  opackets : Nat
  ibytes : Nat
  obytes : Nat
  imissed : Nat
  ierrors : Nat
  oerrors : Nat
  rx_nombuf : Nat
  q_ipackets : List Nat
  q_opackets : List Nat
  q_ibytes : List Nat
  q_obytes : List Nat
  q_errors : List Nat
  deriving DecidableEq

/-- Modelled from the spec: `rte_ether_addr` from the `dpdk_sys` bindings,
a 6-byte hardware address. -/
structure rte_ether_addr where
  addr_bytes : List Nat
  deriving DecidableEq

/-- Modelled from the spec: `rte_eth_desc_lim` (descriptor limits) from the
`dpdk_sys` bindings, field list as used by `RteEthDescLim::default`. -/
structure rte_eth_desc_lim where
  nb_max : Nat
  nb_min : Nat
  nb_align : Nat
  nb_seg_max : Nat
  nb_mtu_seg_max : Nat
  deriving DecidableEq

/-- Modelled from the spec: `rte_eth_dev_portconf` (port configuration)
from the `dpdk_sys` bindings. -/
structure rte_eth_dev_portconf where
  burst_size : Nat
  ring_size : Nat
  nb_queues : Nat
  deriving DecidableEq

/-- Modelled from the spec: `rte_eth_rxseg_capa` (rx-segment capability)
from the `dpdk_sys` bindings.  `bitfield_1` models the bindgen bit-field
unit `_bitfield_1` (its all-zero encoding is `0`); `bitfield_align_1`
models the empty alignment array `_bitfield_align_1`. -/
structure rte_eth_rxseg_capa where
  bitfield_align_1 : List Nat
  bitfield_1 : Nat
  max_nseg : Nat
  reserved : Nat
  deriving DecidableEq

/-- Modelled from the spec: `rte_eth_thresh` (ring thresholds) from the
`dpdk_sys` bindings. -/
structure rte_eth_thresh where
  pthresh : Nat
  hthresh : Nat
  wthresh : Nat
  deriving DecidableEq

/-- Modelled from the spec: `rte_eth_rxconf` (rx queue configuration) from
the `dpdk_sys` bindings; `rx_seg`, `rx_mempools` and the entries of
`reserved_ptrs` are pointer fields (address `0` is null). -/
structure rte_eth_rxconf where
  rx_thresh : rte_eth_thresh
  rx_free_thresh : Nat
  rx_drop_en : Nat
  rx_deferred_start : Nat
  rx_nseg : Nat
  share_group : Nat
  share_qid : Nat
  offloads : Nat
  rx_seg : Nat
  rx_mempools : Nat
  rx_nmempool : Nat
  reserved_64s : List Nat
  reserved_ptrs : List Nat
  deriving DecidableEq

/-- Modelled from the spec: `rte_eth_txconf` (tx queue configuration) from
the `dpdk_sys` bindings. -/
structure rte_eth_txconf where
  tx_thresh : rte_eth_thresh
  tx_rs_thresh : Nat
  tx_free_thresh : Nat
  tx_deferred_start : Nat
  offloads : Nat
  reserved_64s : List Nat
  reserved_ptrs : List Nat
  deriving DecidableEq

/-- Modelled from the spec: `rte_eth_switch_info` from the `dpdk_sys`
bindings; `name` is a pointer field (address `0` is null). -/
structure rte_eth_switch_info where
  name : Nat
  domain_id : Nat
  port_id : Nat
  rx_domain : Nat
  deriving DecidableEq

/-- Modelled from the spec: `rte_eth_err_handle_mode` is a C enum,
represented by its integer value. -/
abbrev rte_eth_err_handle_mode := Nat

/-- Modelled from the spec: `rte_eth_dev_info` (the device-info aggregate)
from the `dpdk_sys` bindings, field list and order as used by
`RteEthDevInfo::default` in `ffi.rs`.  `device`, `driver_name`,
`dev_flags` and the entries of `reserved_ptrs` are pointer fields
(address `0` is null). -/
structure rte_eth_dev_info where
  device : Nat
  driver_name : Nat
  if_index : Nat
  min_mtu : Nat
  max_mtu : Nat
  dev_flags : Nat
  min_rx_bufsize : Nat
  max_rx_pktlen : Nat
  max_lro_pkt_size : Nat
  max_rx_queues : Nat
  max_tx_queues : Nat
  max_mac_addrs : Nat
  max_hash_mac_addrs : Nat
  max_vfs : Nat
  max_vmdq_pools : Nat
  rx_seg_capa : rte_eth_rxseg_capa
  rx_offload_capa : Nat
  tx_offload_capa : Nat
  rx_queue_offload_capa : Nat
  tx_queue_offload_capa : Nat
  reta_size : Nat
  hash_key_size : Nat
  flow_type_rss_offloads : Nat
  default_rxconf : rte_eth_rxconf
  default_txconf : rte_eth_txconf
  vmdq_queue_base : Nat
  vmdq_queue_num : Nat
  vmdq_pool_base : Nat
  rx_desc_lim : rte_eth_desc_lim
  tx_desc_lim : rte_eth_desc_lim
  speed_capa : Nat
  nb_rx_queues : Nat
  nb_tx_queues : Nat
  max_rx_mempools : Nat
  default_rxportconf : rte_eth_dev_portconf
  default_txportconf : rte_eth_dev_portconf
  dev_capa : Nat
  switch_info : rte_eth_switch_info
  err_handle_mode : rte_eth_err_handle_mode
  reserved_64s : List Nat
  reserved_ptrs : List Nat
  deriving DecidableEq

/-- `RteEthStats::default`. -/
def RteEthStats.default : rte_eth_stats where
  ipackets := 0
  opackets := 0
  ibytes := 0
  obytes := 0
  imissed := 0
  ierrors := 0
  oerrors := 0
  rx_nombuf := 0
  q_ipackets := List.replicate RTE_ETHDEV_QUEUE_STAT_CNTRS 0
  q_opackets := List.replicate RTE_ETHDEV_QUEUE_STAT_CNTRS 0
  q_ibytes := List.replicate RTE_ETHDEV_QUEUE_STAT_CNTRS 0
  q_obytes := List.replicate RTE_ETHDEV_QUEUE_STAT_CNTRS 0
  q_errors := List.replicate RTE_ETHDEV_QUEUE_STAT_CNTRS 0

/-- `RteEtherAddr::default`. -/
def RteEtherAddr.default : rte_ether_addr where
  addr_bytes := List.replicate 6 0

/-- `RteEthDescLim::default`. -/
def RteEthDescLim.default : rte_eth_desc_lim where
  nb_max := 0
  nb_min := 0
  nb_align := 0
  nb_seg_max := 0
  nb_mtu_seg_max := 0

/-- `RteEthDevPortConf::default`. -/
def RteEthDevPortConf.default : rte_eth_dev_portconf where
  burst_size := 0
  ring_size := 0
  nb_queues := 0

/-- `RteEthRxsegCapa::default` (`_bitfield_align_1: []`, `_bitfield_1:
Default::default()` which is the zeroed bit-field unit). -/
def RteEthRxsegCapa.default : rte_eth_rxseg_capa where
  bitfield_align_1 := []
  bitfield_1 := 0
  max_nseg := 0
  reserved := 0

/-- `RteEthThresh::default`. -/
def RteEthThresh.default : rte_eth_thresh where
  pthresh := 0
  hthresh := 0
  wthresh := 0

/-- `RteEthRxConf::default`. -/
def RteEthRxConf.default : rte_eth_rxconf where
  rx_thresh := RteEthThresh.default
  rx_free_thresh := 0
  rx_drop_en := 0
  rx_deferred_start := 0
  rx_nseg := 0
  share_group := 0
  share_qid := 0
  offloads := 0
  rx_seg := 0
  rx_mempools := 0
  rx_nmempool := 0
  reserved_64s := List.replicate 2 0
  reserved_ptrs := List.replicate 2 0

/-- `RteEthTxConf::default`. -/
def RteEthTxConf.default : rte_eth_txconf where
  tx_thresh := RteEthThresh.default
  tx_rs_thresh := 0
  tx_free_thresh := 0
  tx_deferred_start := 0
  offloads := 0
  reserved_64s := List.replicate 2 0
  reserved_ptrs := List.replicate 2 0

/-- `RteEthSwitchInfo::default`. -/
def RteEthSwitchInfo.default : rte_eth_switch_info where
  name := 0
  domain_id := 0
  port_id := 0
  rx_domain := 0

/-- `RteEthErrHandleMode::default` (returns `0`). -/
def RteEthErrHandleMode.default : rte_eth_err_handle_mode := 0

/-- `RteEthDevInfo::default`. -/
def RteEthDevInfo.default : rte_eth_dev_info where
  device := 0
  driver_name := 0
  if_index := 0
  min_mtu := 0
  max_mtu := 0
  dev_flags := 0
  min_rx_bufsize := 0
  max_rx_pktlen := 0
  max_lro_pkt_size := 0
  max_rx_queues := 0
  max_tx_queues := 0
  max_mac_addrs := 0
  max_hash_mac_addrs := 0
  max_vfs := 0
  max_vmdq_pools := 0
  rx_seg_capa := RteEthRxsegCapa.default
  rx_offload_capa := 0
  tx_offload_capa := 0
  rx_queue_offload_capa := 0
  tx_queue_offload_capa := 0
  reta_size := 0
  hash_key_size := 0
  flow_type_rss_offloads := 0
  default_rxconf := RteEthRxConf.default
  default_txconf := RteEthTxConf.default
  vmdq_queue_base := 0
  vmdq_queue_num := 0
  vmdq_pool_base := 0
  rx_desc_lim := RteEthDescLim.default
  tx_desc_lim := RteEthDescLim.default
  speed_capa := 0
  nb_rx_queues := 0
  nb_tx_queues := 0
  max_rx_mempools := 0
  default_rxportconf := RteEthDevPortConf.default
  default_txportconf := RteEthDevPortConf.default
  dev_capa := 0
  switch_info := RteEthSwitchInfo.default
  err_handle_mode := RteEthErrHandleMode.default
  reserved_64s := List.replicate 2 0
  reserved_ptrs := List.replicate 2 0

end Ffi

namespace Ffi

/-- C2: for every signed C integer `v`, `into_result` on `c_int` returns
success iff `v ≥ 0`; on success the payload is `v` cast to `u32` and is
numerically equal to `v`; for `v < 0` it returns failure built from the
original raw value `v` unmodified. -/
theorem cInt_into_result_spec {E : Type} (f : Int → E) (v : Int)
    (hlo : -2147483648 ≤ v) (hhi : v < 2147483648) :
    (0 ≤ v → cInt_into_result v f = .ok v.toNat ∧ ((v.toNat : Int) = v))
    ∧ (v < 0 → cInt_into_result v f = .error (f v)) := by
  constructor
  · intro h
    have hm : v % 4294967296 = v := Int.emod_eq_of_lt h (by omega)
    unfold cInt_into_result
    rw [if_pos h, hm]
    exact ⟨rfl, Int.toNat_of_nonneg h⟩
  · intro h
    unfold cInt_into_result
    rw [if_neg (by omega)]

/-- C2 witness: `-1` maps to failure carrying `-1`, `0` to success `0`,
`42` to success `42`. -/
theorem cInt_into_result_spec_witness :
    cInt_into_result (-1) (fun v => v) = .error (-1)
    ∧ cInt_into_result 0 (fun v => v) = .ok 0
    ∧ cInt_into_result 42 (fun v => v) = .ok 42 :=
  ⟨(cInt_into_result_spec (fun v => v) (-1) (by decide) (by decide)).2 (by decide),
   ((cInt_into_result_spec (fun v => v) 0 (by decide) (by decide)).1 (by decide)).1,
   ((cInt_into_result_spec (fun v => v) 42 (by decide) (by decide)).1 (by decide)).1⟩

/-- C3: for every raw pointer `p`, both pointer specializations of
`into_result` return success carrying exactly the address `p` when `p` is
non-null, and failure carrying the caller-constructed error `f p` when `p`
is null. -/
theorem ptr_into_result_spec {E : Type} (f : Nat → E) (p : Nat) :
    (p ≠ 0 →
      mutPtr_into_result p f = .ok p ∧ constPtr_into_result p f = .ok p)
    ∧ (p = 0 →
      mutPtr_into_result p f = .error (f p)
      ∧ constPtr_into_result p f = .error (f p)) := by
  constructor
  · intro h
    simp [mutPtr_into_result, nonNull_new, constPtr_into_result, h]
  · intro h
    subst h
    exact ⟨rfl, rfl⟩

/-- C3 witness: a null mutable pointer maps to failure; pointer value
`0x1000` maps to success wrapping address `0x1000`, for both pointer
specializations. -/
theorem ptr_into_result_spec_witness :
    mutPtr_into_result 4096 (fun p => p) = .ok 4096
    ∧ constPtr_into_result 4096 (fun p => p) = .ok 4096
    ∧ mutPtr_into_result 0 (fun p => p) = .error 0
    ∧ constPtr_into_result 0 (fun p => p) = .error 0 :=
  ⟨((ptr_into_result_spec (fun p => p) 4096).1 (by decide)).1,
   ((ptr_into_result_spec (fun p => p) 4096).1 (by decide)).2,
   ((ptr_into_result_spec (fun p => p) 0).2 rfl).1,
   ((ptr_into_result_spec (fun p => p) 0).2 rfl).2⟩

/-- C7: on every successful input (non-null pointer, non-negative
integer) the conversion result is identical for any two caller-supplied
error constructors, i.e. the constructor is never consulted on the
success path. -/
theorem error_ctor_unused_on_success {E : Type} (f g : Nat → E)
    (fi gi : Int → E) (p : Nat) (v : Int) :
    (p ≠ 0 →
      mutPtr_into_result p f = mutPtr_into_result p g
      ∧ constPtr_into_result p f = constPtr_into_result p g)
    ∧ (0 ≤ v → cInt_into_result v fi = cInt_into_result v gi) := by
  constructor
  · intro h
    simp [mutPtr_into_result, nonNull_new, constPtr_into_result, h]
  · intro h
    simp [cInt_into_result, h]

/-- C7 witness: two distinct error constructors give the same result at
pointer `0x1000` and at integer `42`. -/
theorem error_ctor_unused_on_success_witness :
    mutPtr_into_result 4096 (fun _ => (1 : Nat))
      = mutPtr_into_result 4096 (fun _ => (2 : Nat))
    ∧ constPtr_into_result 4096 (fun _ => (1 : Nat))
      = constPtr_into_result 4096 (fun _ => (2 : Nat))
    ∧ cInt_into_result 42 (fun _ => (1 : Nat))
      = cInt_into_result 42 (fun _ => (2 : Nat)) :=
  ⟨((error_ctor_unused_on_success (fun _ => 1) (fun _ => 2)
      (fun _ => 1) (fun _ => 2) 4096 42).1 (by decide)).1,
   ((error_ctor_unused_on_success (fun _ => 1) (fun _ => 2)
      (fun _ => 1) (fun _ => 2) 4096 42).1 (by decide)).2,
   (error_ctor_unused_on_success (fun _ => 1) (fun _ => 2)
      (fun _ => 1) (fun _ => 2) 4096 42).2 (by decide)⟩

/-- C10: every success payload of the `c_int` specialization is at most
`2^31 - 1`, and no modular wrap-around occurs: the payload is numerically
equal to the non-negative input. -/
theorem cInt_success_payload_bound {E : Type} (f : Int → E) (v : Int)
    (n : Nat) (hlo : -2147483648 ≤ v) (hhi : v < 2147483648)
    (h : cInt_into_result v f = .ok n) :
    n ≤ 2147483647 ∧ (n : Int) = v := by
  unfold cInt_into_result at h
  by_cases h0 : 0 ≤ v
  · rw [if_pos h0] at h
    have hm : v % 4294967296 = v := Int.emod_eq_of_lt h0 (by omega)
    rw [hm] at h
    have hn : v.toNat = n := by injection h
    have ht : (v.toNat : Int) = v := Int.toNat_of_nonneg h0
    constructor
    · omega
    · rw [← hn]; exact ht
  · rw [if_neg h0] at h
    exact Except.noConfusion h

/-- C10 witness: at input `42` the payload `42` is within the signed
31-bit bound and equal to the input. -/
theorem cInt_success_payload_bound_witness :
    (42 : Nat) ≤ 2147483647 ∧ ((42 : Nat) : Int) = 42 :=
  cInt_success_payload_bound (fun v => v) 42 42 (by decide) (by decide) rfl

/-- Appending a NUL terminator to a NUL-free byte string and taking the
bytes before the first NUL gives back the original bytes. -/
lemma takeWhile_append_nul (s : List Byte) (h : 0 ∉ s) :
    (s ++ [0]).takeWhile (· ≠ 0) = s := by
  induction s with
  | nil => rfl
  | cons a t ih =>
    have ha : a ≠ 0 := fun hz => h (hz ▸ List.mem_cons_self a t)
    have ht : 0 ∉ t := fun hz => h (List.mem_cons_of_mem a hz)
    simp only [List.cons_append, List.takeWhile_cons, decide_eq_true ha]
    rw [if_pos trivial, ih ht]

/-- C4: encoding text with no embedded NUL succeeds, producing the text's
bytes followed by the NUL terminator, and decoding that buffer returns
text equal to the original. -/
theorem encode_decode_roundtrip (s : List Byte)
    (hv : validUtf8 s = true) (hn : 0 ∉ s) :
    into_cstring s = some (s ++ [0]) ∧ (as_str (s ++ [0])).1 = s := by
  constructor
  · unfold into_cstring
    rw [if_neg hn]
  · have hb : cstrBytes (s ++ [0]) = s := takeWhile_append_nul s hn
    simp [as_str, hb, hv]

/-- C4 witness: the text "hi" (bytes `[104, 105]`) round-trips through
encode and decode. -/
theorem encode_decode_roundtrip_witness :
    into_cstring [104, 105] = some [104, 105, 0]
    ∧ (as_str [104, 105, 0]).1 = [104, 105] :=
  encode_decode_roundtrip [104, 105] (by decide) (by decide)

/-- C5: `into_cstring` fails exactly when the input contains an embedded
NUL byte, and it fails for every position of the NUL within the text. -/
theorem into_cstring_fails_iff_embedded_nul (s : List Byte) :
    (into_cstring s = none ↔ 0 ∈ s)
    ∧ (∀ i : Nat, ∀ h : i < s.length,
        s.get ⟨i, h⟩ = 0 → into_cstring s = none) := by
  constructor
  · unfold into_cstring
    by_cases h : 0 ∈ s <;> simp [h]
  · intro i h hz
    have hm : 0 ∈ s := hz ▸ s.get_mem i h
    unfold into_cstring
    rw [if_pos hm]

/-- C5 witness: a NUL embedded at position 1 of `[65, 0, 66]` makes the
encode fail. -/
theorem into_cstring_fails_iff_embedded_nul_witness :
    into_cstring [65, 0, 66] = none :=
  (into_cstring_fails_iff_embedded_nul [65, 0, 66]).2 1 (by decide) rfl

/-- C6: when the bytes before the terminating NUL are not valid UTF-8,
decode returns the empty text and performs exactly one diagnostic log
call; when they are valid UTF-8, decode returns those bytes and logs
nothing. -/
theorem as_str_fallback (buf : List Byte) :
    (validUtf8 (cstrBytes buf) = false → as_str buf = ([], 1))
    ∧ (validUtf8 (cstrBytes buf) = true
        → as_str buf = (cstrBytes buf, 0)) := by
  constructor <;> intro h <;> simp [as_str, h]

/-- C6 witness: the invalid byte `0xFF` before the NUL yields the empty
text with one log call; the valid byte `104` yields the text `[104]` with
no log call. -/
theorem as_str_fallback_witness :
    as_str [255, 0, 65] = ([], 1) ∧ as_str [104, 0] = ([104], 0) :=
  ⟨(as_str_fallback [255, 0, 65]).1 (by decide),
   (as_str_fallback [104, 0]).2 (by decide)⟩

/-- C9: decode never depends on bytes after the first NUL terminator: two
NUL-containing buffers that agree on the bytes before their first NUL
decode to equal results. -/
theorem as_str_ignores_after_nul (b1 b2 : List Byte)
    (_h1 : 0 ∈ b1) (_h2 : 0 ∈ b2)
    (h : cstrBytes b1 = cstrBytes b2) :
    as_str b1 = as_str b2 := by
  unfold as_str
  rw [h]

/-- C9 witness: `[104, 0, 1]` and `[104, 0, 2]` differ only after the NUL
and decode identically. -/
theorem as_str_ignores_after_nul_witness :
    as_str [104, 0, 1] = as_str [104, 0, 2] :=
  as_str_ignores_after_nul [104, 0, 1] [104, 0, 2]
    (by decide) (by decide) rfl

/-- C1: every ABI struct factory returns the fully zeroed instance: all
numeric fields and bit-field groups are zero, all pointer fields are null
(address `0`), the fixed-length arrays are filled with the zero element
with length `RTE_ETHDEV_QUEUE_STAT_CNTRS` for the five per-queue arrays
of `rte_eth_stats`, and every nested sub-structure of
`RteEthDevInfo.default` equals its own dedicated factory's value. -/
theorem abi_struct_factories_zeroed :
    (RteEthStats.default.ipackets = 0
      ∧ RteEthStats.default.opackets = 0
      ∧ RteEthStats.default.ibytes = 0
      ∧ RteEthStats.default.obytes = 0
      ∧ RteEthStats.default.imissed = 0
      ∧ RteEthStats.default.ierrors = 0
      ∧ RteEthStats.default.oerrors = 0
      ∧ RteEthStats.default.rx_nombuf = 0
      ∧ RteEthStats.default.q_ipackets
          = List.replicate RTE_ETHDEV_QUEUE_STAT_CNTRS 0
      ∧ RteEthStats.default.q_opackets
          = List.replicate RTE_ETHDEV_QUEUE_STAT_CNTRS 0
      ∧ RteEthStats.default.q_ibytes
          = List.replicate RTE_ETHDEV_QUEUE_STAT_CNTRS 0
      ∧ RteEthStats.default.q_obytes
          = List.replicate RTE_ETHDEV_QUEUE_STAT_CNTRS 0
      ∧ RteEthStats.default.q_errors
          = List.replicate RTE_ETHDEV_QUEUE_STAT_CNTRS 0)
    ∧ RteEtherAddr.default.addr_bytes = List.replicate 6 0
    ∧ RteEthDescLim.default = ⟨0, 0, 0, 0, 0⟩
    ∧ RteEthDevPortConf.default = ⟨0, 0, 0⟩
    ∧ RteEthRxsegCapa.default = ⟨[], 0, 0, 0⟩
    ∧ RteEthThresh.default = ⟨0, 0, 0⟩
    ∧ RteEthRxConf.default
        = ⟨RteEthThresh.default, 0, 0, 0, 0, 0, 0, 0, 0, 0, 0,
           List.replicate 2 0, List.replicate 2 0⟩
    ∧ RteEthTxConf.default
        = ⟨RteEthThresh.default, 0, 0, 0, 0,
           List.replicate 2 0, List.replicate 2 0⟩
    ∧ RteEthSwitchInfo.default = ⟨0, 0, 0, 0⟩
    ∧ RteEthErrHandleMode.default = 0
    ∧ (RteEthDevInfo.default.device = 0
      ∧ RteEthDevInfo.default.driver_name = 0
      ∧ RteEthDevInfo.default.dev_flags = 0
      ∧ RteEthDevInfo.default.reserved_ptrs = List.replicate 2 0)
    ∧ (RteEthDevInfo.default.if_index = 0
      ∧ RteEthDevInfo.default.min_mtu = 0
      ∧ RteEthDevInfo.default.max_mtu = 0
      ∧ RteEthDevInfo.default.min_rx_bufsize = 0
      ∧ RteEthDevInfo.default.max_rx_pktlen = 0
      ∧ RteEthDevInfo.default.max_lro_pkt_size = 0
      ∧ RteEthDevInfo.default.max_rx_queues = 0
      ∧ RteEthDevInfo.default.max_tx_queues = 0
      ∧ RteEthDevInfo.default.max_mac_addrs = 0
      ∧ RteEthDevInfo.default.max_hash_mac_addrs = 0
      ∧ RteEthDevInfo.default.max_vfs = 0
      ∧ RteEthDevInfo.default.max_vmdq_pools = 0
      ∧ RteEthDevInfo.default.rx_offload_capa = 0
      ∧ RteEthDevInfo.default.tx_offload_capa = 0
      ∧ RteEthDevInfo.default.rx_queue_offload_capa = 0
      ∧ RteEthDevInfo.default.tx_queue_offload_capa = 0
      ∧ RteEthDevInfo.default.reta_size = 0
      ∧ RteEthDevInfo.default.hash_key_size = 0
      ∧ RteEthDevInfo.default.flow_type_rss_offloads = 0
      ∧ RteEthDevInfo.default.vmdq_queue_base = 0
      ∧ RteEthDevInfo.default.vmdq_queue_num = 0
      ∧ RteEthDevInfo.default.vmdq_pool_base = 0
      ∧ RteEthDevInfo.default.speed_capa = 0
      ∧ RteEthDevInfo.default.nb_rx_queues = 0
      ∧ RteEthDevInfo.default.nb_tx_queues = 0
      ∧ RteEthDevInfo.default.max_rx_mempools = 0
      ∧ RteEthDevInfo.default.dev_capa = 0
      ∧ RteEthDevInfo.default.reserved_64s = List.replicate 2 0)
    ∧ (RteEthDevInfo.default.rx_seg_capa = RteEthRxsegCapa.default
      ∧ RteEthDevInfo.default.default_rxconf = RteEthRxConf.default
      ∧ RteEthDevInfo.default.default_txconf = RteEthTxConf.default
      ∧ RteEthDevInfo.default.rx_desc_lim = RteEthDescLim.default
      ∧ RteEthDevInfo.default.tx_desc_lim = RteEthDescLim.default
      ∧ RteEthDevInfo.default.default_rxportconf = RteEthDevPortConf.default
      ∧ RteEthDevInfo.default.default_txportconf = RteEthDevPortConf.default
      ∧ RteEthDevInfo.default.switch_info = RteEthSwitchInfo.default
      ∧ RteEthDevInfo.default.err_handle_mode
          = RteEthErrHandleMode.default) := by
  repeat' apply And.intro
  all_goals rfl

end Ffi
